import Mathlib

/-!
Verification of the maritime load-testing repository's telemetry encoder and
payload generators.

The Python sources are shallowly embedded:
* strings are `String` / `List Char`;
* Python floats are modelled as exact rationals (`ℚ`), with `float(...)`
  parsing of the decimal strings produced by the generators modelled by
  `pyParseFloatL` and the float-to-int conversion `int(...)` (truncation
  toward zero) modelled by `pyTrunc`;
* a raised-and-caught exception is `Except.error` / `Option.none`.

The central definition is `encodeField` / `encode_cbor`, translated from
`MaritimeIoTUser.encode_cbor` in `locustfile.py`.
-/

/-- Numeric value of a decimal digit character (`ord(c) - ord('0')`). -/
def dval (c : Char) : ℕ := c.toNat - 48

/-- Value of a list of decimal digit characters, most significant first. -/
def digitsVal (l : List Char) : ℕ := l.foldl (fun a c => a * 10 + dval c) 0

/-- True when the list is a nonempty run of decimal digits. -/
def isDigits (l : List Char) : Bool := !l.isEmpty && l.all (fun c => c.isDigit)

/-- Python `int(s)` on a digit string without sign: `some` of the value when
every character is a decimal digit, `none` (a `ValueError`) otherwise. -/
def pyParseNat (l : List Char) : Option ℕ :=
  if isDigits l then some (digitsVal l) else none

/-- Python `int(s)`: an optional single sign followed by decimal digits.
(Surrounding whitespace and underscore separators, which Python also accepts,
never occur in this repository's payloads and are not modelled.) -/
def pyParseIntL (l : List Char) : Option ℤ :=
  match l with
  | '-' :: rest => (pyParseNat rest).map (fun n => -(n : ℤ))
  | '+' :: rest => (pyParseNat rest).map (fun n => (n : ℤ))
  | _ => (pyParseNat l).map (fun n => (n : ℤ))

/-- Split a character list at the first `'.'`, returning the part before it
and, when a dot is present, the part after it. -/
def splitDot : List Char → List Char × Option (List Char)
  | [] => ([], none)
  | '.' :: rest => ([], some rest)
  | c :: rest =>
    let p := splitDot rest
    (c :: p.1, p.2)

/-- Python `float(s)` on an unsigned decimal literal: digits with an optional
fractional part, at least one digit in total (`"12"`, `"12.5"`, `"12."`,
`".5"`).  The value `ip.fp` is the exact rational
`(ip * 10^|fp| + fp) / 10^|fp|`.  Exponent, `inf` and `nan` forms never occur
in these payloads and are not modelled. -/
def pyParseUnsignedL (l : List Char) : Option ℚ :=
  match splitDot l with
  | (ip, none) => if isDigits ip then some ((digitsVal ip : ℚ)) else none
  | (ip, some fp) =>
    if (ip.all (fun c => c.isDigit) && fp.all (fun c => c.isDigit)
        && !(ip.isEmpty && fp.isEmpty)) then
      some (mkRat ((digitsVal ip * 10 ^ fp.length + digitsVal fp : ℕ) : ℤ)
        (10 ^ fp.length))
    else none

/-- Python `float(s)`: an optional single sign followed by an unsigned
decimal literal; `none` models a raised `ValueError`. -/
def pyParseFloatL (l : List Char) : Option ℚ :=
  match l with
  | '-' :: rest => (pyParseUnsignedL rest).map (fun q => -q)
  | '+' :: rest => pyParseUnsignedL rest
  | _ => pyParseUnsignedL l

/-- Python `int(x)` on a number: truncation toward zero, computed as the
toward-zero integer division of the numerator by the denominator. -/
def pyTrunc (q : ℚ) : ℤ := q.num.tdiv q.den

/-- Python `int(x * s)` for a rational `x` and integer scale `s`, computed
without rational multiplication: the exact value of `x * s` is
`(x.num * s) / x.den`, and truncation toward zero of that fraction is the
toward-zero division of `x.num * s` by `x.den`.  `truncScale_eq_pyTrunc`
proves this equal to `pyTrunc (x * s)`. -/
def truncScale (q : ℚ) (s : ℕ) : ℤ := (q.num * s).tdiv q.den

/-- Python `s.split(sep)` for a one-character separator: keeps empty pieces,
so `""` gives `[""]` and `"a-"` gives `["a", ""]`. -/
def splitOnChar (sep : Char) : List Char → List (List Char)
  | [] => [[]]
  | c :: rest =>
    let r := splitOnChar sep rest
    if c = sep then [] :: r
    else
      match r with
      | [] => [[c]]
      | h :: t => (c :: h) :: t

/-- Python `s.split()` with no argument: split on whitespace runs and drop
empty pieces.  (The payload strings only ever contain the space character,
so only `' '` is treated as whitespace.) -/
def pySplitWs (l : List Char) : List (List Char) :=
  (splitOnChar ' ' l).filter (fun p => !p.isEmpty)

/-- Gregorian leap-year test, as used by Python's `datetime`. -/
def isLeapYear (y : ℕ) : Bool := y % 4 == 0 && (y % 100 != 0 || y % 400 == 0)

/-- Number of days in a month, as validated by Python's `datetime`. -/
def daysInMonth (y m : ℕ) : ℕ :=
  if m = 2 then (if isLeapYear y then 29 else 28)
  else if m = 4 ∨ m = 6 ∨ m = 9 ∨ m = 11 then 30
  else 31

/-- Python `strptime` `%y` pivot: two-digit years 00–68 are 2000–2068 and
69–99 are 1969–1999. -/
def pivotYear (yy : ℕ) : ℕ := if yy ≤ 68 then 2000 + yy else 1900 + yy

/-- Python `datetime.strptime(value, "%y%m%d %H%M%S.0")` followed by
`strftime("%Y%m%d")`: parse a fifteen-character timestamp, validate every
component the way `datetime` does (month 1..12, day within the month,
hour 0..23, minute 0..59, second 0..59 — `datetime` rejects leap seconds),
and return `(year, month, day)`; `none` models a raised `ValueError`. -/
def parseTimeYMDHMS : List Char → Option (ℕ × ℕ × ℕ)
  | [y1, y2, m1, m2, d1, d2, sp, h1, h2, i1, i2, s1, s2, dt, z] =>
    if sp = ' ' ∧ dt = '.' ∧ z = '0' ∧
       y1.isDigit = true ∧ y2.isDigit = true ∧ m1.isDigit = true ∧
       m2.isDigit = true ∧ d1.isDigit = true ∧ d2.isDigit = true ∧
       h1.isDigit = true ∧ h2.isDigit = true ∧ i1.isDigit = true ∧
       i2.isDigit = true ∧ s1.isDigit = true ∧ s2.isDigit = true then
      if 1 ≤ dval m1 * 10 + dval m2 ∧ dval m1 * 10 + dval m2 ≤ 12 ∧
         1 ≤ dval d1 * 10 + dval d2 ∧
         dval d1 * 10 + dval d2 ≤
           daysInMonth (pivotYear (dval y1 * 10 + dval y2))
             (dval m1 * 10 + dval m2) ∧
         dval h1 * 10 + dval h2 ≤ 23 ∧ dval i1 * 10 + dval i2 ≤ 59 ∧
         dval s1 * 10 + dval s2 ≤ 59 then
        some (pivotYear (dval y1 * 10 + dval y2), dval m1 * 10 + dval m2,
          dval d1 * 10 + dval d2)
      else none
    else none
  | _ => none

/-- Values stored in the encoded CBOR frame: pass-through strings, quantized
or reformatted integers, and integer arrays. -/
inductive CborValue where
  | vstr (s : String)
  | vint (n : ℤ)
  | varr (l : List ℤ)
deriving DecidableEq

deriving instance DecidableEq for Except

/-- Field-name to integer-key table of `MaritimeIoTUser.on_start`
(`self.field_mapping`), in Python dict insertion order. -/
def field_mapping : List (String × ℕ) :=
  [("msisdn", 0), ("iso6346", 1), ("time", 2), ("rssi", 3), ("cgi", 4),
   ("bat-soc", 5), ("acc", 6), ("temperature", 7), ("humidity", 8),
   ("pressure", 9), ("door", 10), ("latitude", 11), ("longitude", 12),
   ("altitude", 13), ("speed", 14), ("heading", 15), ("ble-m", 16),
   ("gnss", 17), ("nsat", 18), ("hdop", 19)]

/-- Per-field quantization scale table of `MaritimeIoTUser.on_start`
(`self.quantization_factors`), rendered as a total function returning
`none` for fields absent from the dict. -/
def quantFactor (name : String) : Option ℕ :=
  if name = "temperature" then some 10
  else if name = "humidity" then some 10
  else if name = "pressure" then some 100
  else if name = "latitude" then some 100
  else if name = "longitude" then some 100
  else if name = "altitude" then some 1
  else if name = "speed" then some 1
  else if name = "heading" then some 1
  else if name = "acc" then some 10
  else if name = "hdop" then some 1
  else none

/-- Body of the per-field loop of `MaritimeIoTUser.encode_cbor`: transform
one field's raw string value into the frame value stored under its integer
key.  `Except.error` models an exception that escapes the per-field code and
is caught only by the whole-frame handler. -/
def encodeField (name : String) (value : String) : Except Unit CborValue :=
  if name = "msisdn" then
    match pyParseIntL (value.data.drop (value.data.length - 2)) with
    | some n => .ok (.vint n)
    | none => .error ()
  else if name = "time" then
    match parseTimeYMDHMS value.data with
    | some (y, m, d) => .ok (.vint ((y * 10000 + m * 100 + d : ℕ) : ℤ))
    | none => .error ()
  else if name = "cgi" then
    match splitOnChar '-' value.data with
    | p0 :: p1 :: p2 :: p3 :: _ =>
      match pyParseIntL p0, pyParseIntL p1, pyParseIntL p2, pyParseIntL p3 with
      | some a, some b, some c, some d =>
        .ok (.varr [Int.emod a 1000, Int.emod b 100, Int.emod c 100,
          Int.emod d 10000])
      | _, _, _, _ => .error ()
    | _ => .ok (.vstr value)
  else if name = "acc" then
    match pySplitWs value.data with
    | p0 :: p1 :: p2 :: _ =>
      match pyParseFloatL p0, pyParseFloatL p1, pyParseFloatL p2 with
      | some f0, some f1, some f2 =>
        .ok (.varr
          [truncScale f0 ((quantFactor "acc").getD 0),
           truncScale f1 ((quantFactor "acc").getD 0),
           truncScale f2 ((quantFactor "acc").getD 0)])
      | _, _, _ => .error ()
    | _ => .ok (.vstr value)
  else
    match quantFactor name with
    | some s =>
      match pyParseFloatL value.data with
      | some v => .ok (.vint (truncScale v s))
      | none => .ok (.vstr value)
    | none => .ok (.vstr value)

/-- The loop of `MaritimeIoTUser.encode_cbor` over `self.field_mapping`:
fields present in the input record are encoded in table order; an exception
in any field aborts the whole loop. -/
def encodeFields : List (String × ℕ) → List (String × String) →
    Except Unit (List (ℕ × CborValue))
  | [], _ => .ok []
  | (name, key) :: rest, record =>
    match List.lookup name record with
    | none => encodeFields rest record
    | some v =>
      match encodeField name v with
      | .error e => .error e
      | .ok val =>
        match encodeFields rest record with
        | .error e => .error e
        | .ok l => .ok ((key, val) :: l)

/-- `MaritimeIoTUser.encode_cbor`: the reserved version key `0xFF ↦ 1` and
codec key `0xFE ↦ 1` followed by the mapped fields; `none` models the
`except` handler returning `None` after any exception. -/
def encode_cbor (record : List (String × String)) :
    Option (List (ℕ × CborValue)) :=
  match encodeFields field_mapping record with
  | .ok l => some ((255, .vint 1) :: (254, .vint 1) :: l)
  | .error _ => none

/-- A concrete well-formed telemetry record with the value shapes produced by
`MaritimeIoTUser.generate_esp32_payload`. -/
def sampleRecordBase : List (String × String) :=
  [("msisdn", "393315537123"), ("iso6346", "LMCU123456"),
   ("time", "240115 143022.0"), ("rssi", "-61"), ("cgi", "222-10-1-5000"),
   ("bat-soc", "57"), ("acc", "-12.3456 1.2000 9.8100"),
   ("temperature", "23.456"), ("humidity", "45.2"), ("pressure", "1013.2"),
   ("door", "C"), ("latitude", "31.123"), ("longitude", "29.456"),
   ("altitude", "12.3"), ("speed", "11.4"), ("heading", "180.5"),
   ("ble-m", "0"), ("gnss", "1"), ("nsat", "08"), ("hdop", "1.5")]

/-- `sampleRecordBase` with the unparsable temperature string of the spec's
malformed-numeric example. -/
def sampleRecordNA : List (String × String) :=
  sampleRecordBase.map (fun p => if p.1 = "temperature" then (p.1, "N/A") else p)

/-- `sampleRecordBase` with the spec's cell-id example whose trailing segment
`"31D41"` is not numeric. -/
def sampleRecordBadCgi : List (String × String) :=
  sampleRecordBase.map (fun p => if p.1 = "cgi" then (p.1, "999-01-1-31D41") else p)

/-- Success classification of `ProductionFlowUser.send_batch_to_slave`
(`locust_production_flow.py`): `response.success()` is called only for
status 200; 500 and every other status call `response.failure(...)`. -/
def send_batch_to_slave_success (status : ℕ) : Bool := status == 200

/-- Success classification of `AstrocastUser.test_mobius_endpoint`
(`locust_astrocast_simple.py`): status in `[200, 201]` or 409 calls
`response.success()`, everything else `response.failure(...)`. -/
def test_mobius_endpoint_success (status : ℕ) : Bool :=
  status == 200 || status == 201 || status == 409

/-- Success classification of
`UltraOptimizedContainerTestUser.send_ultra_optimized_container`
(`locust_ultra_optimized.py`): status 200 and 409 call `response.success()`,
everything else `response.failure(...)`. -/
def send_ultra_optimized_success (status : ℕ) : Bool :=
  status == 200 || status == 409

/-- CPython `random.uniform(a, b)` computes `a + (b - a) * random()`. -/
def pyUniform (a b r : ℚ) : ℚ := a + (b - a) * r

/-- Constraint satisfied by every outcome of CPython `random.random()`. -/
def unit_interval (r : ℚ) : Prop := 0 ≤ r ∧ r < 1

/-- Constraint satisfied by every outcome of `random.randint(lo, hi)`
(both endpoints inclusive). -/
def randint_range (lo hi n : ℤ) : Prop := lo ≤ n ∧ n ≤ hi

/-- Numeric value of the `humidity` field of
`MaritimeIoTUser.generate_esp32_payload`: `random.uniform(20, 80)`
(formatted to one decimal place as a string). -/
def esp32_humidity (r : ℚ) : ℚ := pyUniform 20 80 r

/-- Numeric value of the `heading` field of
`MaritimeIoTUser.generate_esp32_payload`: `random.uniform(0, 360)`. -/
def esp32_heading (r : ℚ) : ℚ := pyUniform 0 360 r

/-- Numeric value of the `humidity` field of
`UltraOptimizedContainerGenerator.generate_ultra_optimized_container_data`:
`30 + random.random() * 50`. -/
def ultra_humidity (r : ℚ) : ℚ := 30 + r * 50

/-- Numeric value of the `heading` field of
`UltraOptimizedContainerGenerator.generate_ultra_optimized_container_data`:
`random.random() * 360`. -/
def ultra_heading (r : ℚ) : ℚ := r * 360

/-- Numeric value of the `humidity` field of
`ProductionFlowUser.generate_realistic_container`: `random.uniform(30, 70)`. -/
def production_humidity (r : ℚ) : ℚ := pyUniform 30 70 r

/-- Numeric value of the `heading` field of
`ProductionFlowUser.generate_realistic_container`: `random.uniform(0, 360)`. -/
def production_heading (r : ℚ) : ℚ := pyUniform 0 360 r

/-- Character of a single decimal digit. -/
def digitChar (n : ℕ) : Char := Char.ofNat (48 + n)

/-- Zero-padded two-digit decimal rendering, as `strftime` produces for
`%y`, `%m`, `%d`, `%H`, `%M` and `%S`. -/
def pad2 (n : ℕ) : List Char := [digitChar (n / 10), digitChar (n % 10)]

/-- The timestamp string produced by
`datetime.strftime("%y%m%d %H%M%S.0")` in `generate_esp32_payload` for the
given components. -/
def mkTimeChars (yy mm dd hh mi ss : ℕ) : List Char :=
  pad2 yy ++ pad2 mm ++ pad2 dd ++
    ' ' :: (pad2 hh ++ pad2 mi ++ pad2 ss ++ ['.', '0'])

/-- Truncation toward zero of the fraction `a / b` equals the floor for a
nonnegative quotient and the ceiling for a negative one. -/
lemma tdiv_toward_zero (a : ℤ) (b : ℕ) (hb : b ≠ 0) :
    a.tdiv b =
      if (0 : ℚ) ≤ (a : ℚ) / (b : ℚ) then ⌊(a : ℚ) / (b : ℚ)⌋
      else ⌈(a : ℚ) / (b : ℚ)⌉ := by
  have hb0 : (0 : ℚ) < (b : ℚ) := by exact_mod_cast Nat.pos_of_ne_zero hb
  rcases le_or_lt 0 a with ha | ha
  · have hq : (0 : ℚ) ≤ (a : ℚ) / (b : ℚ) :=
      div_nonneg (by exact_mod_cast ha) hb0.le
    rw [if_pos hq, Rat.floor_intCast_div_natCast,
      Int.tdiv_eq_ediv ha (Int.ofNat_nonneg b)]
  · have hq : (a : ℚ) / (b : ℚ) < 0 :=
      div_neg_of_neg_of_pos (by exact_mod_cast ha) hb0
    rw [if_neg (not_le.mpr hq)]
    have h1 : a.tdiv (b : ℤ) = -((-a).tdiv (b : ℤ)) := by
      rw [Int.neg_tdiv, neg_neg]
    rw [h1, Int.tdiv_eq_ediv (by linarith : (0 : ℤ) ≤ -a) (Int.ofNat_nonneg b),
      ← Rat.floor_intCast_div_natCast (-a) b]
    have h2 : (((-a : ℤ) : ℚ)) / (b : ℚ) = -((a : ℚ) / (b : ℚ)) := by
      push_cast; ring
    rw [h2, Int.floor_neg, neg_neg]

/-- The unreduced fraction `(q.num * s) / q.den` has the exact value `q * s`. -/
lemma num_mul_scale (q : ℚ) (s : ℕ) :
    ((q.num * s : ℤ) : ℚ) / (q.den : ℚ) = q * s := by
  have hden : ((q.den : ℚ)) ≠ 0 := by
    exact_mod_cast q.den_nz
  have hnum : (q.num : ℚ) = q * (q.den : ℚ) :=
    (div_eq_iff hden).mp (Rat.num_div_den q)
  push_cast
  field_simp
  rw [hnum]
  ring

/-- `truncScale` computes exactly `pyTrunc` of the scaled value. -/
lemma truncScale_eq_pyTrunc (q : ℚ) (s : ℕ) :
    truncScale q s = pyTrunc (q * s) := by
  unfold truncScale pyTrunc
  rw [tdiv_toward_zero (q.num * s) q.den q.den_nz,
    tdiv_toward_zero (q * s).num (q * s).den (q * s).den_nz,
    num_mul_scale, Rat.num_div_den]

/-- Truncation toward zero moves a rational by strictly less than one. -/
lemma pyTrunc_sub_abs_lt (q : ℚ) : |((pyTrunc q : ℤ) : ℚ) - q| < 1 := by
  unfold pyTrunc
  rw [tdiv_toward_zero q.num q.den q.den_nz, Rat.num_div_den]
  split_ifs with hq
  · have h1 := Int.floor_le q
    have h2 := Int.sub_one_lt_floor q
    rw [abs_lt]; constructor <;> linarith
  · have h1 := Int.le_ceil q
    have h2 := Int.ceil_lt_add_one q
    rw [abs_lt]; constructor <;> linarith

/-- Bounded quantization error of the truncating scale-and-round step. -/
lemma truncScale_error (q : ℚ) (s : ℕ) (hs : 0 < s) :
    |((truncScale q s : ℤ) : ℚ) / (s : ℚ) - q| < 1 / (s : ℚ) := by
  have hs0 : (0 : ℚ) < (s : ℚ) := by exact_mod_cast hs
  rw [truncScale_eq_pyTrunc]
  have h := pyTrunc_sub_abs_lt (q * (s : ℚ))
  have h3 : ((pyTrunc (q * (s : ℚ)) : ℤ) : ℚ) / (s : ℚ) - q =
      (((pyTrunc (q * (s : ℚ)) : ℤ) : ℚ) - q * (s : ℚ)) / (s : ℚ) := by
    field_simp
    ring
  rw [h3, abs_div, abs_of_pos hs0]
  exact (div_lt_div_iff_of_pos_right hs0).mpr h

/-- Fields in the quantization table never collide with the four fields
that have dedicated branches ahead of the quantization branch. -/
lemma quantFactor_not_special {name : String} {s : ℕ}
    (h : quantFactor name = some s) :
    name ≠ "msisdn" ∧ name ≠ "time" ∧ name ≠ "cgi" := by
  unfold quantFactor at h
  split_ifs at h <;> simp_all

/-- Every scale in the quantization table is positive. -/
lemma quantFactor_pos {name : String} {s : ℕ}
    (h : quantFactor name = some s) : 0 < s := by
  unfold quantFactor at h
  split_ifs at h <;> simp_all <;> omega

/-- Reduction of `encodeField` on any scalar field of the quantization table
other than the composite `acc`. -/
lemma encodeField_quant {name : String} {s : ℕ} (value : String)
    (hq : quantFactor name = some s) (hacc : name ≠ "acc") :
    encodeField name value =
      match pyParseFloatL value.data with
      | some v => .ok (.vint (truncScale v s))
      | none => .ok (.vstr value) := by
  obtain ⟨hm, ht, hc⟩ := quantFactor_not_special hq
  unfold encodeField
  rw [if_neg hm, if_neg ht, if_neg hc, if_neg hacc, hq]

/-- Reduction of `encodeField` on the timestamp field. -/
lemma encodeField_time (value : String) :
    encodeField "time" value =
      match parseTimeYMDHMS value.data with
      | some (y, m, d) => .ok (.vint ((y * 10000 + m * 100 + d : ℕ) : ℤ))
      | none => .error () := rfl

/-- Reduction of `encodeField` on the accelerometer field. -/
lemma encodeField_acc (value : String) :
    encodeField "acc" value =
      match pySplitWs value.data with
      | p0 :: p1 :: p2 :: _ =>
        match pyParseFloatL p0, pyParseFloatL p1, pyParseFloatL p2 with
        | some f0, some f1, some f2 =>
          .ok (.varr [truncScale f0 10, truncScale f1 10, truncScale f2 10])
        | _, _, _ => .error ()
      | _ => .ok (.vstr value) := rfl

/-- Reduction of `encodeField` on the cell-id field. -/
lemma encodeField_cgi (value : String) :
    encodeField "cgi" value =
      match splitOnChar '-' value.data with
      | p0 :: p1 :: p2 :: p3 :: _ =>
        match pyParseIntL p0, pyParseIntL p1, pyParseIntL p2, pyParseIntL p3 with
        | some a, some b, some c, some d =>
          .ok (.varr [Int.emod a 1000, Int.emod b 100, Int.emod c 100,
            Int.emod d 10000])
        | _, _, _, _ => .error ()
      | _ => .ok (.vstr value) := rfl

/-- Digit characters are decimal digits. -/
lemma digitChar_isDigit {k : ℕ} (h : k ≤ 9) : (digitChar k).isDigit = true := by
  interval_cases k <;> decide

/-- Digit value of a digit character. -/
lemma dval_digitChar {k : ℕ} (h : k ≤ 9) : dval (digitChar k) = k := by
  interval_cases k <;> decide

/-- Parsing a timestamp rendered by `strftime("%y%m%d %H%M%S.0")` recovers
exactly the pivoted year, month and day, for every valid component. -/
lemma parse_mkTimeChars (yy mm dd hh mi ss : ℕ)
    (hyy : yy ≤ 99) (hmm1 : 1 ≤ mm) (hmm2 : mm ≤ 12) (hdd1 : 1 ≤ dd)
    (hdd2 : dd ≤ daysInMonth (pivotYear yy) mm) (hhh : hh ≤ 23)
    (hmi : mi ≤ 59) (hss : ss ≤ 59) :
    parseTimeYMDHMS (mkTimeChars yy mm dd hh mi ss) =
      some (pivotYear yy, mm, dd) := by
  have hy1 : yy / 10 ≤ 9 := by omega
  have hy2 : yy % 10 ≤ 9 := by omega
  have hm1 : mm / 10 ≤ 9 := by omega
  have hm2 : mm % 10 ≤ 9 := by omega
  have hdm : daysInMonth (pivotYear yy) mm ≤ 31 := by
    unfold daysInMonth
    split_ifs <;> omega
  have hd1 : dd / 10 ≤ 9 := by omega
  have hd2 : dd % 10 ≤ 9 := by omega
  have hh1 : hh / 10 ≤ 9 := by omega
  have hh2 : hh % 10 ≤ 9 := by omega
  have hi1 : mi / 10 ≤ 9 := by omega
  have hi2 : mi % 10 ≤ 9 := by omega
  have hs1 : ss / 10 ≤ 9 := by omega
  have hs2 : ss % 10 ≤ 9 := by omega
  show parseTimeYMDHMS
      [digitChar (yy / 10), digitChar (yy % 10), digitChar (mm / 10),
       digitChar (mm % 10), digitChar (dd / 10), digitChar (dd % 10), ' ',
       digitChar (hh / 10), digitChar (hh % 10), digitChar (mi / 10),
       digitChar (mi % 10), digitChar (ss / 10), digitChar (ss % 10),
       '.', '0'] = some (pivotYear yy, mm, dd)
  rw [parseTimeYMDHMS]
  rw [if_pos ⟨rfl, rfl, rfl, digitChar_isDigit hy1, digitChar_isDigit hy2,
    digitChar_isDigit hm1, digitChar_isDigit hm2, digitChar_isDigit hd1,
    digitChar_isDigit hd2, digitChar_isDigit hh1, digitChar_isDigit hh2,
    digitChar_isDigit hi1, digitChar_isDigit hi2, digitChar_isDigit hs1,
    digitChar_isDigit hs2⟩]
  simp only [dval_digitChar hy1, dval_digitChar hy2, dval_digitChar hm1,
    dval_digitChar hm2, dval_digitChar hd1, dval_digitChar hd2,
    dval_digitChar hh1, dval_digitChar hh2, dval_digitChar hi1,
    dval_digitChar hi2, dval_digitChar hs1, dval_digitChar hs2]
  have eyy : yy / 10 * 10 + yy % 10 = yy := by omega
  have emm : mm / 10 * 10 + mm % 10 = mm := by omega
  have edd : dd / 10 * 10 + dd % 10 = dd := by omega
  have ehh : hh / 10 * 10 + hh % 10 = hh := by omega
  have emi : mi / 10 * 10 + mi % 10 = mi := by omega
  have ess : ss / 10 * 10 + ss % 10 = ss := by omega
  rw [eyy, emm, edd, ehh, emi, ess]
  rw [if_pos ⟨hmm1, hmm2, hdd1, hdd2, hhh, hmi, hss⟩]

/-- Reduction of `encodeField` on the msisdn field: Python
`int(value[-2:])`. -/
lemma encodeField_msisdn (value : String) :
    encodeField "msisdn" value =
      match pyParseIntL (value.data.drop (value.data.length - 2)) with
      | some n => Except.ok (CborValue.vint n)
      | none => Except.error () := rfl

/-- C1 counterexample: the claim asserts that encoding the temperature
string "23.456" with scale 10 yields the rounded value 235; the encoder
truncates with Python `int()` and actually yields 234. -/
theorem c1_counterexample :
    encodeField "temperature" "23.456" = .ok (.vint 234) ∧
    encodeField "temperature" "23.456" ≠ .ok (.vint 235) := by
  decide

/-- C1 (amended): for every quantized scalar field whose raw value parses
as a number `v`, the encoder produces `int(v * scaleFactor)` truncated
toward zero, not the rounded value; in particular the temperature string
"23.456" with scale 10 encodes to 234. -/
theorem c1_truncating_quantization :
    (∀ (name : String) (s : ℕ) (value : String) (v : ℚ),
      quantFactor name = some s → name ≠ "acc" →
      pyParseFloatL value.data = some v →
      encodeField name value = .ok (.vint (pyTrunc (v * (s : ℚ))))) ∧
    encodeField "temperature" "23.456" = .ok (.vint 234) := by
  constructor
  · intro name s value v hq hacc hparse
    simp only [encodeField_quant value hq hacc, hparse]
    rw [truncScale_eq_pyTrunc]
  · decide

/-- C1 witness: the general statement of `c1_truncating_quantization`
instantiated at the temperature example. -/
theorem c1_witness :
    encodeField "temperature" "23.456" =
      .ok (.vint (pyTrunc (mkRat 23456 1000 * ((10 : ℕ) : ℚ)))) :=
  c1_truncating_quantization.1 "temperature" 10 "23.456" (mkRat 23456 1000)
    (by decide) (by decide) (by decide)

/-- C2 counterexample: the claim lists `msisdn` among the plain scalar
fields copied unchanged into the frame, but the encoder replaces the
msisdn string "393315537123" by the integer 23 (its last two digits). -/
theorem c2_counterexample :
    encodeField "msisdn" "393315537123" = .ok (.vint 23) ∧
    encodeField "msisdn" "393315537123" ≠ .ok (.vstr "393315537123") := by
  decide

/-- C2 (amended): every plain scalar field of the mapping without a
quantization entry and without field-specific handling — iso6346, rssi,
bat-soc, door, ble-m, gnss, nsat — is copied into the frame unchanged;
msisdn, although it has no quantization entry, is instead replaced by the
integer value of its last two characters. -/
theorem c2_passthrough :
    (∀ value : String,
      encodeField "iso6346" value = .ok (.vstr value) ∧
      encodeField "rssi" value = .ok (.vstr value) ∧
      encodeField "bat-soc" value = .ok (.vstr value) ∧
      encodeField "door" value = .ok (.vstr value) ∧
      encodeField "ble-m" value = .ok (.vstr value) ∧
      encodeField "gnss" value = .ok (.vstr value) ∧
      encodeField "nsat" value = .ok (.vstr value)) ∧
    (∀ (value : String) (n : ℤ),
      pyParseIntL (value.data.drop (value.data.length - 2)) = some n →
      encodeField "msisdn" value = .ok (.vint n)) := by
  constructor
  · intro value
    exact ⟨rfl, rfl, rfl, rfl, rfl, rfl, rfl⟩
  · intro value n hparse
    simp only [encodeField_msisdn, hparse]

/-- C2 witness: the msisdn clause of `c2_passthrough` instantiated at a
concrete twelve-digit msisdn. -/
theorem c2_witness :
    encodeField "msisdn" "393315537123" = .ok (.vint 23) :=
  c2_passthrough.2 "393315537123" 23 (by decide)

/-- C3 counterexample: encoding a record whose cell-id is
"999-01-1-31D41" (non-numeric trailing segment) aborts the whole frame:
`encode_cbor` returns `none`, so no frame with the other fields exists. -/
theorem c3_counterexample : encode_cbor sampleRecordBadCgi = none := by decide

/-- C3 (amended): a cell-id that splits into at least four parts with a
non-numeric part raises inside the per-frame try block, so the encoder
returns no frame at all (`none`); the string-preserving fallback exists
only when the cell-id splits into fewer than four parts. -/
theorem c3_aborted_frame :
    encode_cbor sampleRecordBadCgi = none ∧
    encodeField "cgi" "999-01" = .ok (.vstr "999-01") := by decide

/-- C4 counterexample: the claim asserts every cited caller records 200,
201 and 409 as success; `send_batch_to_slave` records 409 as a failure and
`send_ultra_optimized_container` records 201 as a failure. -/
theorem c4_counterexample :
    send_batch_to_slave_success 409 = false ∧
    send_ultra_optimized_success 201 = false := by decide

/-- C4 (amended): each caller has its own success set — `test_mobius_endpoint`
accepts exactly 200, 201 and 409; `send_ultra_optimized_container` accepts
exactly 200 and 409; `send_batch_to_slave` accepts exactly 200. -/
theorem c4_per_caller_success :
    ∀ status : ℕ,
      (test_mobius_endpoint_success status = true ↔
        (status = 200 ∨ status = 201 ∨ status = 409)) ∧
      (send_ultra_optimized_success status = true ↔
        (status = 200 ∨ status = 409)) ∧
      (send_batch_to_slave_success status = true ↔ status = 200) := by
  intro status
  refine ⟨?_, ?_, ?_⟩ <;>
    simp [test_mobius_endpoint_success, send_ultra_optimized_success,
      send_batch_to_slave_success, or_assoc]

/-- C5: for every quantized scalar field with scale `s` whose raw value
parses as the number `v`, the emitted integer `q` satisfies
`|q / s - v| < 1 / s`. -/
theorem c5_quantization_error_bound :
    ∀ (name : String) (s : ℕ) (value : String) (v : ℚ),
      quantFactor name = some s → name ≠ "acc" →
      pyParseFloatL value.data = some v →
      ∃ q : ℤ, encodeField name value = .ok (.vint q) ∧
        |(q : ℚ) / (s : ℚ) - v| < 1 / (s : ℚ) := by
  intro name s value v hq hacc hparse
  refine ⟨truncScale v s, ?_, ?_⟩
  · rw [encodeField_quant value hq hacc, hparse]
  · exact truncScale_error v s (quantFactor_pos hq)

/-- C5 witness: the bound instantiated at the temperature example. -/
theorem c5_witness :
    ∃ q : ℤ, encodeField "temperature" "23.456" = .ok (.vint q) ∧
      |(q : ℚ) / ((10 : ℕ) : ℚ) - mkRat 23456 1000| < 1 / ((10 : ℕ) : ℚ) :=
  c5_quantization_error_bound "temperature" 10 "23.456" (mkRat 23456 1000)
    (by decide) (by decide) (by decide)

/-- C6: a quantized scalar field holding an unparsable string (such as
temperature "N/A") does not abort encoding — the field keeps its original
string value and the frame still contains every other mapped field. -/
theorem c6_malformed_numeric_fallback :
    (∀ (name : String) (s : ℕ) (value : String),
      quantFactor name = some s → name ≠ "acc" →
      pyParseFloatL value.data = none →
      encodeField name value = .ok (.vstr value)) ∧
    encode_cbor sampleRecordNA = some
      [(255, .vint 1), (254, .vint 1), (0, .vint 23), (1, .vstr "LMCU123456"),
       (2, .vint 20240115), (3, .vstr "-61"), (4, .varr [222, 10, 1, 5000]),
       (5, .vstr "57"), (6, .varr [-123, 12, 98]), (7, .vstr "N/A"),
       (8, .vint 452), (9, .vint 101320), (10, .vstr "C"), (11, .vint 3112),
       (12, .vint 2945), (13, .vint 12), (14, .vint 11), (15, .vint 180),
       (16, .vstr "0"), (17, .vstr "1"), (18, .vstr "08"),
       (19, .vint 1)] := by
  constructor
  · intro name s value hq hacc hparse
    rw [encodeField_quant value hq hacc, hparse]
  · decide

/-- C6 witness: the per-field fallback clause instantiated at temperature
"N/A". -/
theorem c6_witness :
    encodeField "temperature" "N/A" = .ok (.vstr "N/A") :=
  c6_malformed_numeric_fallback.1 "temperature" 10 "N/A"
    (by decide) (by decide) (by decide)

/-- C7: a timestamp in the "YYMMDD HHMMSS.0" layout produced by the
generator is reformatted into the integer YYYYMMDD with the time-of-day
discarded (the result does not depend on hour, minute or second); in
particular "240115 143022.0" encodes to 20240115. -/
theorem c7_timestamp_compaction :
    (∀ yy mm dd hh mi ss : ℕ, yy ≤ 99 → 1 ≤ mm → mm ≤ 12 → 1 ≤ dd →
      dd ≤ daysInMonth (pivotYear yy) mm → hh ≤ 23 → mi ≤ 59 → ss ≤ 59 →
      encodeField "time" ⟨mkTimeChars yy mm dd hh mi ss⟩ =
        .ok (.vint ((pivotYear yy * 10000 + mm * 100 + dd : ℕ) : ℤ))) ∧
    encodeField "time" "240115 143022.0" = .ok (.vint 20240115) := by
  constructor
  · intro yy mm dd hh mi ss hyy hmm1 hmm2 hdd1 hdd2 hhh hmi hss
    rw [encodeField_time]
    rw [show (String.mk (mkTimeChars yy mm dd hh mi ss)).data =
      mkTimeChars yy mm dd hh mi ss from rfl]
    rw [parse_mkTimeChars yy mm dd hh mi ss hyy hmm1 hmm2 hdd1 hdd2 hhh
      hmi hss]
  · decide

/-- C7 witness: the general statement instantiated at 2024-01-15
14:30:22. -/
theorem c7_witness :
    encodeField "time" ⟨mkTimeChars 24 1 15 14 30 22⟩ =
      .ok (.vint ((pivotYear 24 * 10000 + 1 * 100 + 15 : ℕ) : ℤ)) := by
  refine c7_timestamp_compaction.1 24 1 15 14 30 22 ?_ ?_ ?_ ?_ ?_ ?_ ?_ ?_ <;>
    decide

/-- C8: an accelerometer string of three whitespace-separated parsable
components is encoded, with scale 10, as the length-3 integer array of the
truncated scaled components; in particular "-12.3456 1.2000 9.8100"
encodes to [-123, 12, 98]. -/
theorem c8_acc_quantized_array :
    (∀ (value : String) (p0 p1 p2 : List Char) (f0 f1 f2 : ℚ),
      pySplitWs value.data = [p0, p1, p2] →
      pyParseFloatL p0 = some f0 → pyParseFloatL p1 = some f1 →
      pyParseFloatL p2 = some f2 →
      encodeField "acc" value =
        .ok (.varr [pyTrunc (f0 * 10), pyTrunc (f1 * 10),
          pyTrunc (f2 * 10)])) ∧
    encodeField "acc" "-12.3456 1.2000 9.8100" =
      .ok (.varr [-123, 12, 98]) := by
  constructor
  · intro value p0 p1 p2 f0 f1 f2 hsplit h0 h1 h2
    simp only [encodeField_acc, hsplit, h0, h1, h2]
    rw [truncScale_eq_pyTrunc, truncScale_eq_pyTrunc, truncScale_eq_pyTrunc]
    norm_num
  · decide

/-- C8 witness: the general statement instantiated at the spec's
accelerometer example. -/
theorem c8_witness :
    encodeField "acc" "-12.3456 1.2000 9.8100" =
      .ok (.varr [pyTrunc (-(mkRat 123456 10000) * 10),
        pyTrunc (mkRat 12000 10000 * 10), pyTrunc (mkRat 98100 10000 * 10)]) :=
  c8_acc_quantized_array.1 "-12.3456 1.2000 9.8100"
    "-12.3456".data "1.2000".data "9.8100".data
    (-(mkRat 123456 10000)) (mkRat 12000 10000) (mkRat 98100 10000)
    (by decide) (by decide) (by decide) (by decide)

/-- C9: for all outcomes of the random source, the three generators keep
humidity in [0, 100], battery state-of-charge in [0, 100] and heading in
[0, 360]: humidity is uniform(20, 80), uniform(30, 70) or
30 + random()*50; bat-soc is randint(20, 95), randint(70, 100) or
randint(20, 100); heading is uniform(0, 360) or random()*360. -/
theorem c9_generator_ranges :
    ∀ (r1 r2 r3 r4 r5 r6 : ℚ) (b1 b2 b3 : ℤ),
      unit_interval r1 → unit_interval r2 → unit_interval r3 →
      unit_interval r4 → unit_interval r5 → unit_interval r6 →
      randint_range 20 95 b1 → randint_range 70 100 b2 →
      randint_range 20 100 b3 →
      (0 ≤ esp32_humidity r1 ∧ esp32_humidity r1 ≤ 100) ∧
      (0 ≤ esp32_heading r2 ∧ esp32_heading r2 ≤ 360) ∧
      (0 ≤ b1 ∧ b1 ≤ 100) ∧
      (0 ≤ ultra_humidity r3 ∧ ultra_humidity r3 ≤ 100) ∧
      (0 ≤ ultra_heading r4 ∧ ultra_heading r4 ≤ 360) ∧
      (0 ≤ b2 ∧ b2 ≤ 100) ∧
      (0 ≤ production_humidity r5 ∧ production_humidity r5 ≤ 100) ∧
      (0 ≤ production_heading r6 ∧ production_heading r6 ≤ 360) ∧
      (0 ≤ b3 ∧ b3 ≤ 100) := by
  intro r1 r2 r3 r4 r5 r6 b1 b2 b3 h1 h2 h3 h4 h5 h6 hb1 hb2 hb3
  obtain ⟨h1a, h1b⟩ := h1
  obtain ⟨h2a, h2b⟩ := h2
  obtain ⟨h3a, h3b⟩ := h3
  obtain ⟨h4a, h4b⟩ := h4
  obtain ⟨h5a, h5b⟩ := h5
  obtain ⟨h6a, h6b⟩ := h6
  obtain ⟨hb1a, hb1b⟩ := hb1
  obtain ⟨hb2a, hb2b⟩ := hb2
  obtain ⟨hb3a, hb3b⟩ := hb3
  unfold esp32_humidity esp32_heading ultra_humidity ultra_heading
    production_humidity production_heading pyUniform
  repeat' apply And.intro
  all_goals linarith

/-- C9 witness: the range statement instantiated at the zero draws and the
smallest battery draws. -/
theorem c9_witness :
    (0 ≤ esp32_humidity 0 ∧ esp32_humidity 0 ≤ 100) ∧
    (0 ≤ esp32_heading 0 ∧ esp32_heading 0 ≤ 360) ∧
    (0 ≤ (20 : ℤ) ∧ (20 : ℤ) ≤ 100) ∧
    (0 ≤ ultra_humidity 0 ∧ ultra_humidity 0 ≤ 100) ∧
    (0 ≤ ultra_heading 0 ∧ ultra_heading 0 ≤ 360) ∧
    (0 ≤ (70 : ℤ) ∧ (70 : ℤ) ≤ 100) ∧
    (0 ≤ production_humidity 0 ∧ production_humidity 0 ≤ 100) ∧
    (0 ≤ production_heading 0 ∧ production_heading 0 ≤ 360) ∧
    (0 ≤ (20 : ℤ) ∧ (20 : ℤ) ≤ 100) := by
  refine c9_generator_ranges 0 0 0 0 0 0 20 70 20 ?_ ?_ ?_ ?_ ?_ ?_ ?_ ?_ ?_ <;>
    exact ⟨by norm_num, by norm_num⟩

/-- C10: a cell-id splitting on '-' into at least four parts whose first
four are all numeric is encoded as the length-4 array of the parts reduced
modulo 1000, 100, 100 and 10000 (each component lying in the corresponding
half-open range); a cell-id splitting into fewer than four parts is kept
unchanged as a string. -/
theorem c10_cgi_decomposition :
    (∀ (value : String) (p0 p1 p2 p3 : List Char) (rest : List (List Char))
      (a b c d : ℤ),
      splitOnChar '-' value.data = p0 :: p1 :: p2 :: p3 :: rest →
      pyParseIntL p0 = some a → pyParseIntL p1 = some b →
      pyParseIntL p2 = some c → pyParseIntL p3 = some d →
      encodeField "cgi" value =
        .ok (.varr [Int.emod a 1000, Int.emod b 100, Int.emod c 100,
          Int.emod d 10000]) ∧
      (0 ≤ Int.emod a 1000 ∧ Int.emod a 1000 < 1000) ∧
      (0 ≤ Int.emod b 100 ∧ Int.emod b 100 < 100) ∧
      (0 ≤ Int.emod c 100 ∧ Int.emod c 100 < 100) ∧
      (0 ≤ Int.emod d 10000 ∧ Int.emod d 10000 < 10000)) ∧
    (∀ value : String, (splitOnChar '-' value.data).length < 4 →
      encodeField "cgi" value = .ok (.vstr value)) := by
  constructor
  · intro value p0 p1 p2 p3 rest a b c d hsplit h0 h1 h2 h3
    constructor
    · simp only [encodeField_cgi, hsplit, h0, h1, h2, h3]
    · repeat' apply And.intro
      all_goals first
      | exact Int.emod_nonneg _ (by decide)
      | exact Int.emod_lt_of_pos _ (by decide)
  · intro value hlen
    rw [encodeField_cgi]
    rcases hsp : splitOnChar '-' value.data with
      _ | ⟨p0, _ | ⟨p1, _ | ⟨p2, _ | ⟨p3, rest⟩⟩⟩⟩ <;>
      first
      | rfl
      | (rw [hsp] at hlen; simp at hlen; omega)

/-- C10 witness: both clauses instantiated — a four-part numeric cell-id
and a two-part cell-id. -/
theorem c10_witness :
    (encodeField "cgi" "222-10-1-5000" =
      .ok (.varr [Int.emod 222 1000, Int.emod 10 100, Int.emod 1 100,
        Int.emod 5000 10000])) ∧
    encodeField "cgi" "999-01" = .ok (.vstr "999-01") := by
  refine ⟨(c10_cgi_decomposition.1 "222-10-1-5000" "222".data "10".data
    "1".data "5000".data [] 222 10 1 5000 ?_ ?_ ?_ ?_ ?_).1,
    c10_cgi_decomposition.2 "999-01" ?_⟩ <;> decide
